import Mathlib

/-!
Verification of the TransRoomer coordination core: the GraphTemplate Engine
(`app/workflow_manager.py`) and the Generation Orchestrator (`app/img2img.py`).

The embedding models a ComfyUI workflow JSON object as an association list from
node-id strings to node records; Python dict operations (`d[k] = v`,
`d.update(...)`, `d.pop(k, None)`, `k in d`) become the corresponding
association-list operations on the first occurrence of a key.  Python floats
are modelled as rationals; the random seed, measured image dimensions,
timestamps and all network/filesystem effects are passed in explicitly as
parameters or oracles.
-/

/-- Values stored in a node's input slots: strings, numbers (Python floats,
modelled as rationals), integers, or references `[nodeKey, outputIndex]` to
another node's output. -/
inductive JValue where
  | str : String → JValue
  | num : ℚ → JValue
  | int : Int → JValue
  | ref : String → Nat → JValue
  deriving DecidableEq, Repr

/-- A node of the workflow graph: an engine node type plus a mapping from
input-slot name to value, modelled as an association list in insertion order
(mirroring a Python dict). -/
structure NodeSpec where
  class_type : String
  inputs : List (String × JValue)
  deriving DecidableEq, Repr

/-- A workflow graph: mapping from node-id string to node, modelled as an
association list in insertion order (mirroring the JSON object / Python dict). -/
abbrev Workflow : Type := List (String × NodeSpec)

/-- Python `d[k]` / `d.get(k)` on a string-keyed dict of slot values. -/
def dictGet : List (String × JValue) → String → Option JValue
  | [], _ => none
  | (k, v) :: rest, key => if k = key then some v else dictGet rest key

/-- Python `d[k] = v` on a slot dict: replace the first occurrence of the key,
or append the pair if the key is absent (dict insertion-order semantics). -/
def dictSet : List (String × JValue) → String → JValue → List (String × JValue)
  | [], key, v => [(key, v)]
  | (k, w) :: rest, key, v =>
      if k = key then (k, v) :: rest else (k, w) :: dictSet rest key v

/-- Python `d.update(pairs)` on a slot dict: set each pair in order. -/
def dictUpdate (d : List (String × JValue)) (pairs : List (String × JValue)) :
    List (String × JValue) :=
  pairs.foldl (fun acc p => dictSet acc p.1 p.2) d

/-- Python `workflow[k]` / `k in workflow` on the graph dict. -/
def wfLookup : Workflow → String → Option NodeSpec
  | [], _ => none
  | (k, n) :: rest, key => if k = key then some n else wfLookup rest key

/-- In-place modification of the node stored at a key (used for
`workflow[k]["inputs"].update(...)` and `workflow[k]["inputs"][slot] = v`);
a missing key leaves the graph unchanged, callers guard for presence. -/
def wfModify : Workflow → String → (NodeSpec → NodeSpec) → Workflow
  | [], _, _ => []
  | (k, n) :: rest, key, f =>
      if k = key then (k, f n) :: rest else (k, n) :: wfModify rest key f

/-- Python `workflow.pop(k, None)`: remove the first occurrence of the key. -/
def wfPop : Workflow → String → Workflow
  | [], _ => []
  | (k, n) :: rest, key => if k = key then rest else (k, n) :: wfPop rest key

/-- Python `workflow[k]["inputs"][slot] = v`: raises `KeyError` (here `none`)
when the node key is absent from the graph. -/
def wfSetSlot (wf : Workflow) (key slot : String) (v : JValue) : Option Workflow :=
  match wfLookup wf key with
  | none => none
  | some _ => some (wfModify wf key (fun n => { n with inputs := dictSet n.inputs slot v }))

/-- One iteration of the `for node_id, inputs in node_updates.items()` loop of
`create_custom_workflow`: apply the update only when the node id is present. -/
def stepNodeUpdate (wf : Workflow) (u : String × List (String × JValue)) : Workflow :=
  if (wfLookup wf u.1).isSome then
    wfModify wf u.1 (fun n => { n with inputs := dictUpdate n.inputs u.2 })
  else wf

/-- Bind-time loop of `create_custom_workflow` (lines 122-124): each entry of
`node_updates` is applied in order, silently skipping absent node ids. -/
def applyNodeUpdates (wf : Workflow) (updates : List (String × List (String × JValue))) :
    Workflow :=
  updates.foldl stepNodeUpdate wf

/-- Code of `WorkflowManager._get_image_dimensions`: returns the measured size,
or the fixed default 1024x1024 when the image cannot be read (the read outcome
is passed in as an `Option`). -/
def get_image_dimensions (readResult : Option (Int × Int)) : Int × Int :=
  match readResult with
  | some s => s
  | none => (1024, 1024)

/-- The `(controlnet_strength, denoise)` pair selected by the task-type
if/elif chain of `create_custom_workflow` (lines 82-93). -/
def taskTuning (task_type : String) : ℚ × ℚ :=
  if task_type = "add" ∨ task_type = "replace" ∨ task_type = "furniture" then
    (8 / 100, 90 / 100)
  else if task_type = "material" ∨ task_type = "surface" then
    (10 / 100, 85 / 100)
  else
    (12 / 100, 85 / 100)

/-- The `input_scale_factor` computation of `create_custom_workflow`
(lines 96-99): `1024 / shortest_side if shortest_side > 0 else 1.0`, applied to
the (possibly defaulted) measured dimensions. -/
def input_scale_of (dims : Option (Int × Int)) : ℚ :=
  let wh := get_image_dimensions dims
  let shortest_side := min wh.1 wh.2
  if shortest_side > 0 then 1024 / (shortest_side : ℚ) else 1

/-- The `node_updates` mapping of `create_custom_workflow` (lines 105-119). -/
def vs_node_updates (prompt : String) (input_image_name : String)
    (outputPfx : String) (seed : Int) (checkpoint_name : String)
    (controlnet_strength denoise input_scale_factor : ℚ) :
    List (String × List (String × JValue)) :=
  [("2", [("image", .str input_image_name)]),
   ("22", [("text", .str prompt)]),
   ("25", [("seed", .int seed), ("denoise", .num denoise)]),
   ("7", [("ckpt_name", .str checkpoint_name)]),
   ("213", [("factor", .num input_scale_factor)]),
   ("126", [("filename_prefix", .str outputPfx)]),
   ("10", [("strength", .num controlnet_strength)]),
   ("17", [("strength", .num controlnet_strength)]),
   ("216", [("strength", .num controlnet_strength)])]

/-- The topology-optimization step of `create_custom_workflow` (lines 126-142):
on base resolution the save node is rewired to the decode node 26 and the
upscale node 131 is popped; otherwise, when node 131 is present, its factor is
set and the save node is rewired to it.  `none` models the `KeyError` raised by
the unguarded `workflow["126"]` accesses. -/
def apply_topology (workflow : Workflow) (target_resolution : Int)
    (final_scale_factor : ℚ) : Option Workflow :=
  let is_base_res := |target_resolution - 1024| < 1
  if is_base_res then
    match wfSetSlot workflow "126" "images" (.ref "26" 0) with
    | none => none
    | some wf => some (wfPop wf "131")
  else
    if (wfLookup workflow "131").isSome then
      match wfSetSlot workflow "131" "factor" (.num final_scale_factor) with
      | none => none
      | some wf =>
        match wfSetSlot wf "126" "images" (.ref "131" 0) with
        | none => none
        | some wf2 => some wf2
    else
      some workflow

/-- Code of `WorkflowManager.create_custom_workflow`.  The base workflow is the
loaded template (deep-copied by the source; copying is implicit here since the
embedding is pure), `dims` is the outcome of reading the input image's size,
`seed` the drawn random value, `checkpoint_name` the configured model name.
`none` models the `KeyError` raised by the unguarded
`workflow["126"]["inputs"]["images"] = ...` assignments. -/
def create_custom_workflow (base : Workflow) (prompt : String)
    (input_image_name : String) (outputPfx : String)
    (target_resolution : Int) (task_type : String)
    (dims : Option (Int × Int)) (seed : Int) (checkpoint_name : String) :
    Option Workflow :=
  let workflow := base
  let tuning := taskTuning task_type
  let controlnet_strength := tuning.1
  let denoise := tuning.2
  let input_scale_factor : ℚ := input_scale_of dims
  let final_scale_factor : ℚ := (target_resolution : ℚ) / 1024
  let node_updates := vs_node_updates prompt input_image_name outputPfx seed
    checkpoint_name controlnet_strength denoise input_scale_factor
  let workflow := applyNodeUpdates workflow node_updates
  apply_topology workflow target_resolution final_scale_factor

/-! Basic lemmas about the dict and graph operations. -/

theorem dictGet_dictSet_self (d : List (String × JValue)) (k : String) (v : JValue) :
    dictGet (dictSet d k v) k = some v := by
  induction d with
  | nil => simp [dictSet, dictGet]
  | cons p rest ih =>
    obtain ⟨k', w⟩ := p
    by_cases h : k' = k
    · subst h; simp [dictSet, dictGet]
    · simp [dictSet, dictGet, h, ih]

theorem dictGet_dictSet_ne (d : List (String × JValue)) (k k' : String) (v : JValue)
    (h : k' ≠ k) : dictGet (dictSet d k v) k' = dictGet d k' := by
  induction d with
  | nil => simp [dictSet, dictGet, Ne.symm h]
  | cons p rest ih =>
    obtain ⟨k0, w⟩ := p
    by_cases h0 : k0 = k
    · subst h0
      simp [dictSet, dictGet, Ne.symm h]
    · simp only [dictSet, if_neg h0, dictGet]
      by_cases h1 : k0 = k'
      · simp [h1]
      · simp [h1, ih]

theorem dictSet_dictSet_same (d : List (String × JValue)) (k : String) (v w : JValue) :
    dictSet (dictSet d k v) k w = dictSet d k w := by
  induction d with
  | nil => simp [dictSet]
  | cons p rest ih =>
    obtain ⟨k0, u⟩ := p
    by_cases h : k0 = k
    · subst h; simp [dictSet]
    · simp [dictSet, h, ih]

theorem dictSet_set_set_cancel (d : List (String × JValue)) (k k' : String)
    (x y z : JValue) (h : k ≠ k') :
    dictSet (dictSet (dictSet d k x) k' y) k z = dictSet (dictSet d k z) k' y := by
  induction d with
  | nil => simp [dictSet, h, Ne.symm h]
  | cons p rest ih =>
    obtain ⟨k0, u⟩ := p
    by_cases h0 : k0 = k
    · subst h0; simp [dictSet, h]
    · by_cases h1 : k0 = k'
      · subst h1
        simp [dictSet, h0, Ne.symm h0, dictSet_dictSet_same]
      · simp [dictSet, h0, h1, ih]

theorem wfLookup_wfModify_self (wf : Workflow) (k : String) (f : NodeSpec → NodeSpec) :
    wfLookup (wfModify wf k f) k = (wfLookup wf k).map f := by
  induction wf with
  | nil => simp [wfModify, wfLookup]
  | cons p rest ih =>
    obtain ⟨k0, n⟩ := p
    by_cases h : k0 = k
    · subst h; simp [wfModify, wfLookup]
    · simp [wfModify, wfLookup, h, ih]

theorem wfLookup_wfModify_ne (wf : Workflow) (k k' : String) (f : NodeSpec → NodeSpec)
    (h : k' ≠ k) : wfLookup (wfModify wf k f) k' = wfLookup wf k' := by
  induction wf with
  | nil => simp [wfModify, wfLookup]
  | cons p rest ih =>
    obtain ⟨k0, n⟩ := p
    by_cases h0 : k0 = k
    · subst h0; simp [wfModify, wfLookup, Ne.symm h]
    · simp only [wfModify, if_neg h0, wfLookup]
      by_cases h1 : k0 = k'
      · simp [h1]
      · simp [h1, ih]

theorem wfModify_wfModify_same (wf : Workflow) (k : String) (f g : NodeSpec → NodeSpec) :
    wfModify (wfModify wf k f) k g = wfModify wf k (fun n => g (f n)) := by
  induction wf with
  | nil => simp [wfModify]
  | cons p rest ih =>
    obtain ⟨k0, n⟩ := p
    by_cases h : k0 = k
    · subst h; simp [wfModify]
    · simp [wfModify, h, ih]

theorem wfModify_comm (wf : Workflow) (k k' : String) (f g : NodeSpec → NodeSpec)
    (h : k ≠ k') : wfModify (wfModify wf k f) k' g = wfModify (wfModify wf k' g) k f := by
  induction wf with
  | nil => simp [wfModify]
  | cons p rest ih =>
    obtain ⟨k0, n⟩ := p
    by_cases h0 : k0 = k
    · subst h0; simp [wfModify, h, Ne.symm h]
    · by_cases h1 : k0 = k'
      · subst h1; simp [wfModify, h0, Ne.symm h]
      · simp [wfModify, h0, h1, ih]

theorem wfLookup_wfPop_ne (wf : Workflow) (k k' : String) (h : k' ≠ k) :
    wfLookup (wfPop wf k) k' = wfLookup wf k' := by
  induction wf with
  | nil => simp [wfPop, wfLookup]
  | cons p rest ih =>
    obtain ⟨k0, n⟩ := p
    by_cases h0 : k0 = k
    · subst h0; simp [wfPop, wfLookup, Ne.symm h]
    · simp only [wfPop, if_neg h0, wfLookup]
      by_cases h1 : k0 = k'
      · simp [h1]
      · simp [h1, ih]

theorem keys_wfModify (wf : Workflow) (k : String) (f : NodeSpec → NodeSpec) :
    (wfModify wf k f).map Prod.fst = wf.map Prod.fst := by
  induction wf with
  | nil => simp [wfModify]
  | cons p rest ih =>
    obtain ⟨k0, n⟩ := p
    by_cases h : k0 = k
    · subst h; simp [wfModify]
    · simp [wfModify, h, ih]

theorem wfLookup_eq_none_of_not_mem (wf : Workflow) (k : String)
    (h : k ∉ wf.map Prod.fst) : wfLookup wf k = none := by
  induction wf with
  | nil => simp [wfLookup]
  | cons p rest ih =>
    obtain ⟨k0, n⟩ := p
    simp only [List.map_cons, List.mem_cons, not_or] at h
    simp [wfLookup, Ne.symm h.1, ih h.2]

theorem wfLookup_wfPop_self (wf : Workflow) (k : String)
    (h : (wf.map Prod.fst).Nodup) : wfLookup (wfPop wf k) k = none := by
  induction wf with
  | nil => simp [wfPop, wfLookup]
  | cons p rest ih =>
    obtain ⟨k0, n⟩ := p
    simp only [List.map_cons, List.nodup_cons] at h
    by_cases h0 : k0 = k
    · subst h0
      simp only [wfPop, if_pos rfl]
      exact wfLookup_eq_none_of_not_mem rest k0 h.1
    · simp [wfPop, wfLookup, h0, ih h.2]

theorem wfLookup_stepNodeUpdate_ne (wf : Workflow)
    (u : String × List (String × JValue)) (k : String) (h : k ≠ u.1) :
    wfLookup (stepNodeUpdate wf u) k = wfLookup wf k := by
  unfold stepNodeUpdate
  by_cases hg : (wfLookup wf u.1).isSome
  · simp [hg, wfLookup_wfModify_ne wf u.1 k _ h]
  · simp [hg]

theorem wfLookup_stepNodeUpdate_self (wf : Workflow)
    (u : String × List (String × JValue)) (n : NodeSpec)
    (h : wfLookup wf u.1 = some n) :
    wfLookup (stepNodeUpdate wf u) u.1 =
      some { n with inputs := dictUpdate n.inputs u.2 } := by
  unfold stepNodeUpdate
  simp [h, wfLookup_wfModify_self]

theorem isSome_wfLookup_stepNodeUpdate (wf : Workflow)
    (u : String × List (String × JValue)) (k : String) :
    (wfLookup (stepNodeUpdate wf u) k).isSome = (wfLookup wf k).isSome := by
  unfold stepNodeUpdate
  by_cases hg : (wfLookup wf u.1).isSome
  · by_cases hk : k = u.1
    · subst hk
      simp [hg, wfLookup_wfModify_self, Option.isSome_map]
    · simp [hg, wfLookup_wfModify_ne wf u.1 k _ hk]
  · simp [hg]

theorem keys_stepNodeUpdate (wf : Workflow) (u : String × List (String × JValue)) :
    (stepNodeUpdate wf u).map Prod.fst = wf.map Prod.fst := by
  unfold stepNodeUpdate
  by_cases hg : (wfLookup wf u.1).isSome
  · simp [hg, keys_wfModify]
  · simp [hg]

theorem applyNodeUpdates_append (wf : Workflow)
    (us vs : List (String × List (String × JValue))) :
    applyNodeUpdates wf (us ++ vs) = applyNodeUpdates (applyNodeUpdates wf us) vs := by
  simp [applyNodeUpdates, List.foldl_append]

theorem applyNodeUpdates_cons (wf : Workflow)
    (u : String × List (String × JValue))
    (us : List (String × List (String × JValue))) :
    applyNodeUpdates wf (u :: us) = applyNodeUpdates (stepNodeUpdate wf u) us := rfl

theorem wfLookup_applyNodeUpdates_not_mem (wf : Workflow)
    (updates : List (String × List (String × JValue))) (k : String)
    (h : k ∉ updates.map Prod.fst) :
    wfLookup (applyNodeUpdates wf updates) k = wfLookup wf k := by
  induction updates generalizing wf with
  | nil => simp [applyNodeUpdates]
  | cons u rest ih =>
    simp only [List.map_cons, List.mem_cons, not_or] at h
    show wfLookup (applyNodeUpdates (stepNodeUpdate wf u) rest) k = wfLookup wf k
    rw [ih _ h.2, wfLookup_stepNodeUpdate_ne _ _ _ h.1]

theorem isSome_wfLookup_applyNodeUpdates (wf : Workflow)
    (updates : List (String × List (String × JValue))) (k : String) :
    (wfLookup (applyNodeUpdates wf updates) k).isSome = (wfLookup wf k).isSome := by
  induction updates generalizing wf with
  | nil => simp [applyNodeUpdates]
  | cons u rest ih =>
    show (wfLookup (applyNodeUpdates (stepNodeUpdate wf u) rest) k).isSome = _
    rw [ih, isSome_wfLookup_stepNodeUpdate]

theorem keys_applyNodeUpdates (wf : Workflow)
    (updates : List (String × List (String × JValue))) :
    (applyNodeUpdates wf updates).map Prod.fst = wf.map Prod.fst := by
  induction updates generalizing wf with
  | nil => simp [applyNodeUpdates]
  | cons u rest ih =>
    show (applyNodeUpdates (stepNodeUpdate wf u) rest).map Prod.fst = _
    rw [ih, keys_stepNodeUpdate]

theorem wfLookup_applyNodeUpdates_once (wf : Workflow)
    (pre post : List (String × List (String × JValue)))
    (k : String) (pairs : List (String × JValue))
    (hpre : k ∉ pre.map Prod.fst) (hpost : k ∉ post.map Prod.fst) :
    wfLookup (applyNodeUpdates wf (pre ++ (k, pairs) :: post)) k =
      (wfLookup wf k).map (fun n => { n with inputs := dictUpdate n.inputs pairs }) := by
  rw [show pre ++ (k, pairs) :: post = (pre ++ [(k, pairs)]) ++ post by simp,
    applyNodeUpdates_append, wfLookup_applyNodeUpdates_not_mem _ _ _ hpost,
    applyNodeUpdates_append]
  rw [wfLookup_applyNodeUpdates_not_mem wf pre k hpre |>.symm]
  have hstep : applyNodeUpdates (applyNodeUpdates wf pre) [(k, pairs)] =
      stepNodeUpdate (applyNodeUpdates wf pre) (k, pairs) := rfl
  rw [hstep]
  cases hlk : wfLookup (applyNodeUpdates wf pre) k with
  | none =>
    unfold stepNodeUpdate
    simp [hlk]
  | some n =>
    rw [wfLookup_stepNodeUpdate_self _ _ _ hlk]
    rfl

/-! Lemmas about `wfSetSlot` and `apply_topology`. -/

theorem wfSetSlot_isSome (wf : Workflow) (k s : String) (v : JValue) :
    (wfSetSlot wf k s v).isSome = (wfLookup wf k).isSome := by
  unfold wfSetSlot
  cases wfLookup wf k <;> simp

theorem wfLookup_of_wfSetSlot_ne (wf wf' : Workflow) (k s : String) (v : JValue)
    (h : wfSetSlot wf k s v = some wf') (k' : String) (hk : k' ≠ k) :
    wfLookup wf' k' = wfLookup wf k' := by
  unfold wfSetSlot at h
  cases hlk : wfLookup wf k with
  | none => rw [hlk] at h; exact absurd h (by simp)
  | some n =>
    rw [hlk] at h
    simp only [Option.some_inj] at h
    rw [← h, wfLookup_wfModify_ne _ _ _ _ hk]

theorem wfLookup_of_wfSetSlot_self (wf wf' : Workflow) (k s : String) (v : JValue)
    (n : NodeSpec) (h : wfSetSlot wf k s v = some wf') (hn : wfLookup wf k = some n) :
    wfLookup wf' k = some { n with inputs := dictSet n.inputs s v } := by
  unfold wfSetSlot at h
  rw [hn] at h
  simp only [Option.some_inj] at h
  rw [← h, wfLookup_wfModify_self, hn]
  rfl

theorem keys_of_wfSetSlot (wf wf' : Workflow) (k s : String) (v : JValue)
    (h : wfSetSlot wf k s v = some wf') : wf'.map Prod.fst = wf.map Prod.fst := by
  unfold wfSetSlot at h
  cases hlk : wfLookup wf k with
  | none => rw [hlk] at h; exact absurd h (by simp)
  | some n =>
    rw [hlk] at h
    simp only [Option.some_inj] at h
    rw [← h, keys_wfModify]

theorem wfLookup_apply_topology_ne (workflow wf : Workflow) (tr : Int) (fsf : ℚ)
    (k : String) (h : apply_topology workflow tr fsf = some wf)
    (h126 : k ≠ "126") (h131 : k ≠ "131") :
    wfLookup wf k = wfLookup workflow k := by
  unfold apply_topology at h
  by_cases hbase : |tr - 1024| < 1
  · simp only [hbase, if_true] at h
    cases hset : wfSetSlot workflow "126" "images" (.ref "26" 0) with
    | none => rw [hset] at h; exact absurd h (by simp)
    | some w =>
      rw [hset] at h
      simp only [Option.some_inj] at h
      rw [← h, wfLookup_wfPop_ne _ _ _ h131]
      exact wfLookup_of_wfSetSlot_ne _ _ _ _ _ hset _ h126
  · simp only [hbase, if_false] at h
    by_cases hg : (wfLookup workflow "131").isSome
    · simp only [hg, if_true] at h
      cases hset : wfSetSlot workflow "131" "factor" (.num fsf) with
      | none => rw [hset] at h; exact absurd h (by simp)
      | some w =>
        rw [hset] at h
        have h' : (match wfSetSlot w "126" "images" (.ref "131" 0) with
            | none => none
            | some wf2 => some wf2) = some wf := h
        cases hset2 : wfSetSlot w "126" "images" (.ref "131" 0) with
        | none => rw [hset2] at h'; exact absurd h' (by simp)
        | some w2 =>
          rw [hset2] at h'
          simp only [Option.some_inj] at h'
          rw [← h']
          rw [wfLookup_of_wfSetSlot_ne _ _ _ _ _ hset2 _ h126]
          exact wfLookup_of_wfSetSlot_ne _ _ _ _ _ hset _ h131
    · rw [if_neg hg] at h
      simp only [Option.some_inj] at h
      rw [← h]

/-! Splittings of the `node_updates` list around each key of interest. -/

theorem vs_split_25 (p i o : String) (s : Int) (c : String) (cs dn isf : ℚ) :
    vs_node_updates p i o s c cs dn isf =
      [("2", [("image", .str i)]), ("22", [("text", .str p)])] ++
      ("25", [("seed", .int s), ("denoise", .num dn)]) ::
      [("7", [("ckpt_name", .str c)]), ("213", [("factor", .num isf)]),
       ("126", [("filename_prefix", .str o)]), ("10", [("strength", .num cs)]),
       ("17", [("strength", .num cs)]), ("216", [("strength", .num cs)])] := rfl

theorem vs_split_213 (p i o : String) (s : Int) (c : String) (cs dn isf : ℚ) :
    vs_node_updates p i o s c cs dn isf =
      [("2", [("image", .str i)]), ("22", [("text", .str p)]),
       ("25", [("seed", .int s), ("denoise", .num dn)]),
       ("7", [("ckpt_name", .str c)])] ++
      ("213", [("factor", .num isf)]) ::
      [("126", [("filename_prefix", .str o)]), ("10", [("strength", .num cs)]),
       ("17", [("strength", .num cs)]), ("216", [("strength", .num cs)])] := rfl

theorem vs_split_10 (p i o : String) (s : Int) (c : String) (cs dn isf : ℚ) :
    vs_node_updates p i o s c cs dn isf =
      [("2", [("image", .str i)]), ("22", [("text", .str p)]),
       ("25", [("seed", .int s), ("denoise", .num dn)]),
       ("7", [("ckpt_name", .str c)]), ("213", [("factor", .num isf)]),
       ("126", [("filename_prefix", .str o)])] ++
      ("10", [("strength", .num cs)]) ::
      [("17", [("strength", .num cs)]), ("216", [("strength", .num cs)])] := rfl

theorem vs_split_17 (p i o : String) (s : Int) (c : String) (cs dn isf : ℚ) :
    vs_node_updates p i o s c cs dn isf =
      [("2", [("image", .str i)]), ("22", [("text", .str p)]),
       ("25", [("seed", .int s), ("denoise", .num dn)]),
       ("7", [("ckpt_name", .str c)]), ("213", [("factor", .num isf)]),
       ("126", [("filename_prefix", .str o)]), ("10", [("strength", .num cs)])] ++
      ("17", [("strength", .num cs)]) ::
      [("216", [("strength", .num cs)])] := rfl

theorem vs_split_216 (p i o : String) (s : Int) (c : String) (cs dn isf : ℚ) :
    vs_node_updates p i o s c cs dn isf =
      [("2", [("image", .str i)]), ("22", [("text", .str p)]),
       ("25", [("seed", .int s), ("denoise", .num dn)]),
       ("7", [("ckpt_name", .str c)]), ("213", [("factor", .num isf)]),
       ("126", [("filename_prefix", .str o)]), ("10", [("strength", .num cs)]),
       ("17", [("strength", .num cs)])] ++
      ("216", [("strength", .num cs)]) :: [] := rfl

/-- Characterization of a bound node in the instantiated graph: a key that is
updated exactly once by `node_updates` and untouched by the topology step keeps
its template node with the update applied to its inputs. -/
theorem wfLookup_create_node (base : Workflow) (prompt img outPfx : String)
    (tr : Int) (tt : String) (dims : Option (Int × Int)) (seed : Int) (ckpt : String)
    (wf : Workflow) (k : String) (pairs : List (String × JValue))
    (pre post : List (String × List (String × JValue)))
    (hsplit : vs_node_updates prompt img outPfx seed ckpt (taskTuning tt).1
        (taskTuning tt).2 (input_scale_of dims) = pre ++ (k, pairs) :: post)
    (hpre : k ∉ pre.map Prod.fst) (hpost : k ∉ post.map Prod.fst)
    (hk126 : k ≠ "126") (hk131 : k ≠ "131")
    (hwf : create_custom_workflow base prompt img outPfx tr tt dims seed ckpt = some wf)
    (n : NodeSpec) (hn : wfLookup base k = some n) :
    wfLookup wf k = some { n with inputs := dictUpdate n.inputs pairs } := by
  have hwf' : apply_topology
      (applyNodeUpdates base (vs_node_updates prompt img outPfx seed ckpt
        (taskTuning tt).1 (taskTuning tt).2 (input_scale_of dims)))
      tr ((tr : ℚ) / 1024) = some wf := hwf
  rw [wfLookup_apply_topology_ne _ _ _ _ _ hwf' hk126 hk131, hsplit,
    wfLookup_applyNodeUpdates_once _ _ _ _ _ hpre hpost, hn]
  rfl

/-- Conjunction asserting that all three structural-conditioning nodes carry
the given strength and the sampler node carries the given denoise value. -/
def strengthDenoiseBound (wf : Workflow) (strength denoise : ℚ) : Prop :=
  (∃ n, wfLookup wf "10" = some n ∧ dictGet n.inputs "strength" = some (.num strength)) ∧
  (∃ n, wfLookup wf "17" = some n ∧ dictGet n.inputs "strength" = some (.num strength)) ∧
  (∃ n, wfLookup wf "216" = some n ∧ dictGet n.inputs "strength" = some (.num strength)) ∧
  (∃ n, wfLookup wf "25" = some n ∧ dictGet n.inputs "denoise" = some (.num denoise))

theorem create_binds_strength_denoise (base : Workflow) (prompt img outPfx : String)
    (tr : Int) (tt : String) (dims : Option (Int × Int)) (seed : Int) (ckpt : String)
    (wf : Workflow)
    (hwf : create_custom_workflow base prompt img outPfx tr tt dims seed ckpt = some wf)
    (h10 : (wfLookup base "10").isSome) (h17 : (wfLookup base "17").isSome)
    (h216 : (wfLookup base "216").isSome) (h25 : (wfLookup base "25").isSome) :
    strengthDenoiseBound wf (taskTuning tt).1 (taskTuning tt).2 := by
  obtain ⟨n10, hn10⟩ := Option.isSome_iff_exists.mp h10
  obtain ⟨n17, hn17⟩ := Option.isSome_iff_exists.mp h17
  obtain ⟨n216, hn216⟩ := Option.isSome_iff_exists.mp h216
  obtain ⟨n25, hn25⟩ := Option.isSome_iff_exists.mp h25
  refine ⟨⟨_, wfLookup_create_node base prompt img outPfx tr tt dims seed ckpt wf
      _ _ _ _ (vs_split_10 _ _ _ _ _ _ _ _) (by simp) (by simp)
      (by decide) (by decide) hwf n10 hn10, ?_⟩,
    ⟨_, wfLookup_create_node base prompt img outPfx tr tt dims seed ckpt wf
      _ _ _ _ (vs_split_17 _ _ _ _ _ _ _ _) (by simp) (by simp)
      (by decide) (by decide) hwf n17 hn17, ?_⟩,
    ⟨_, wfLookup_create_node base prompt img outPfx tr tt dims seed ckpt wf
      _ _ _ _ (vs_split_216 _ _ _ _ _ _ _ _) (by simp) (by simp)
      (by decide) (by decide) hwf n216 hn216, ?_⟩,
    ⟨_, wfLookup_create_node base prompt img outPfx tr tt dims seed ckpt wf
      _ _ _ _ (vs_split_25 _ _ _ _ _ _ _ _) (by simp) (by simp)
      (by decide) (by decide) hwf n25 hn25, ?_⟩⟩
  · show dictGet (dictUpdate n10.inputs [("strength", .num _)]) "strength" = _
    exact dictGet_dictSet_self _ _ _
  · show dictGet (dictUpdate n17.inputs [("strength", .num _)]) "strength" = _
    exact dictGet_dictSet_self _ _ _
  · show dictGet (dictUpdate n216.inputs [("strength", .num _)]) "strength" = _
    exact dictGet_dictSet_self _ _ _
  · show dictGet (dictUpdate n25.inputs
        [("seed", .int seed), ("denoise", .num _)]) "denoise" = _
    show dictGet (dictSet (dictSet n25.inputs "seed" (.int seed))
        "denoise" (.num _)) "denoise" = _
    exact dictGet_dictSet_self _ _ _

theorem opt_eq_some_getD {A : Type} (o : Option A) (d : A) (h : o.isSome) :
    o = some (o.getD d) := by
  cases o with
  | none => exact absurd h (by simp)
  | some a => rfl

/-- A concrete template carrying every node key the engine binds, used to
instantiate the universally quantified theorems on explicit inputs. -/
def demoTemplate : Workflow :=
  [("2", ⟨"LoadImage", [("image", .str "example.png")]⟩),
   ("22", ⟨"CLIPTextEncode", [("text", .str "")]⟩),
   ("25", ⟨"KSampler", [("seed", .int 0), ("denoise", .num 1)]⟩),
   ("7", ⟨"CheckpointLoaderSimple", [("ckpt_name", .str "model.safetensors")]⟩),
   ("213", ⟨"ImageScaleBy", [("factor", .num 1)]⟩),
   ("126", ⟨"SaveImage", [("filename_prefix", .str "ComfyUI"), ("images", .ref "131" 0)]⟩),
   ("10", ⟨"ControlNetApplyAdvanced", [("strength", .num 1)]⟩),
   ("17", ⟨"ControlNetApplyAdvanced", [("strength", .num 1)]⟩),
   ("216", ⟨"ControlNetApplyAdvanced", [("strength", .num 1)]⟩),
   ("131", ⟨"ImageScaleBy", [("factor", .num 1)]⟩),
   ("26", ⟨"VAEDecode", [("samples", .ref "25" 0)]⟩)]

/-- C3: for taskCategory in add/replace/furniture all three
structural-conditioning nodes receive strength 0.08 and the sampler denoise
0.90; for material/surface, 0.10 and 0.85; for every other task category,
0.12 and 0.85. -/
theorem control_strength_invariant (base : Workflow) (prompt img outPfx : String)
    (tr : Int) (tt : String) (dims : Option (Int × Int)) (seed : Int) (ckpt : String)
    (wf : Workflow)
    (hwf : create_custom_workflow base prompt img outPfx tr tt dims seed ckpt = some wf)
    (h10 : (wfLookup base "10").isSome) (h17 : (wfLookup base "17").isSome)
    (h216 : (wfLookup base "216").isSome) (h25 : (wfLookup base "25").isSome) :
    ((tt = "add" ∨ tt = "replace" ∨ tt = "furniture") →
       strengthDenoiseBound wf (8 / 100) (90 / 100)) ∧
    ((tt = "material" ∨ tt = "surface") →
       strengthDenoiseBound wf (10 / 100) (85 / 100)) ∧
    (tt ≠ "add" → tt ≠ "replace" → tt ≠ "furniture" → tt ≠ "material" → tt ≠ "surface" →
       strengthDenoiseBound wf (12 / 100) (85 / 100)) := by
  have hb := create_binds_strength_denoise base prompt img outPfx tr tt dims seed ckpt
    wf hwf h10 h17 h216 h25
  refine ⟨fun h => ?_, fun h => ?_, fun h1 h2 h3 h4 h5 => ?_⟩
  · have ht : taskTuning tt = (8 / 100, 90 / 100) := by
      unfold taskTuning; rw [if_pos h]
    rw [ht] at hb
    exact hb
  · have ht : taskTuning tt = (10 / 100, 85 / 100) := by
      unfold taskTuning
      rcases h with h | h <;> subst h <;> simp
    rw [ht] at hb
    exact hb
  · have ht : taskTuning tt = (12 / 100, 85 / 100) := by
      unfold taskTuning
      simp [h1, h2, h3, h4, h5]
    rw [ht] at hb
    exact hb

/-- Witness for `control_strength_invariant` at task category "add" on the
demo template. -/
theorem control_strength_invariant_witness :
    strengthDenoiseBound
      ((create_custom_workflow demoTemplate "cozy room" "room_1.png" "vs_temp_1_0_"
        2048 "add" (some (2048, 1536)) 5 "model.safetensors").getD [])
      (8 / 100) (90 / 100) :=
  (control_strength_invariant demoTemplate "cozy room" "room_1.png" "vs_temp_1_0_"
    2048 "add" (some (2048, 1536)) 5 "model.safetensors" _
    (opt_eq_some_getD _ [] (by decide))
    (by decide) (by decide) (by decide) (by decide)).1 (Or.inl rfl)

/-- C8: the pre-scale factor bound into node 213 equals `input_scale_of dims`,
which is 1024 divided by the shortest side when that side is positive, 1
when it is zero or negative, and 1 for an unreadable image (dims = none,
defaulted to 1024x1024); the guarded formula never divides by zero. -/
theorem input_scale_safety (base : Workflow) (prompt img outPfx : String)
    (tr : Int) (tt : String) (dims : Option (Int × Int)) (seed : Int) (ckpt : String)
    (wf : Workflow)
    (hwf : create_custom_workflow base prompt img outPfx tr tt dims seed ckpt = some wf)
    (h213 : (wfLookup base "213").isSome) :
    (∃ n, wfLookup wf "213" = some n ∧
       dictGet n.inputs "factor" = some (.num (input_scale_of dims))) ∧
    (∀ w h : Int, dims = some (w, h) → 0 < min w h →
       input_scale_of dims = 1024 / ((min w h : Int) : ℚ)) ∧
    (∀ w h : Int, dims = some (w, h) → min w h ≤ 0 → input_scale_of dims = 1) ∧
    (dims = none → input_scale_of dims = 1) := by
  obtain ⟨n213, hn213⟩ := Option.isSome_iff_exists.mp h213
  refine ⟨⟨_, wfLookup_create_node base prompt img outPfx tr tt dims seed ckpt wf
      _ _ _ _ (vs_split_213 _ _ _ _ _ _ _ _) (by simp) (by simp)
      (by decide) (by decide) hwf n213 hn213, ?_⟩, ?_, ?_, ?_⟩
  · show dictGet (dictUpdate n213.inputs [("factor", .num _)]) "factor" = _
    exact dictGet_dictSet_self _ _ _
  · intro w h hd hpos
    subst hd
    simp only [input_scale_of, get_image_dimensions]
    rw [if_pos hpos]
  · intro w h hd hnonpos
    subst hd
    simp only [input_scale_of, get_image_dimensions]
    rw [if_neg (not_lt.mpr hnonpos)]
  · intro hd
    subst hd
    simp only [input_scale_of, get_image_dimensions]
    norm_num

/-- Witness for `input_scale_safety`: a 2048x1536 readable input yields scale
1024/1536 and an unreadable input yields scale 1. -/
theorem input_scale_safety_witness :
    input_scale_of (some (2048, 1536)) = 1024 / ((1536 : Int) : ℚ) ∧
    input_scale_of none = 1 :=
  ⟨(input_scale_safety demoTemplate "cozy room" "room_1.png" "vs_temp_1_0_"
      2048 "add" (some (2048, 1536)) 5 "model.safetensors" _
      (opt_eq_some_getD _ [] (by decide))
      (by decide)).2.1 2048 1536 rfl (by decide),
   (input_scale_safety demoTemplate "cozy room" "room_1.png" "vs_temp_1_0_"
      2048 "add" none 5 "model.safetensors" _
      (opt_eq_some_getD _ [] (by decide))
      (by decide)).2.2.2 rfl⟩

theorem apply_topology_base_res (workflow wf : Workflow) (tr : Int) (fsf : ℚ)
    (htr : |tr - 1024| < 1) (hnodup : (workflow.map Prod.fst).Nodup)
    (h : apply_topology workflow tr fsf = some wf) :
    wfLookup wf "131" = none ∧
    ∃ m, wfLookup workflow "126" = some m ∧
      wfLookup wf "126" =
        some { m with inputs := dictSet m.inputs "images" (.ref "26" 0) } := by
  unfold apply_topology at h
  rw [if_pos htr] at h
  cases hset : wfSetSlot workflow "126" "images" (.ref "26" 0) with
  | none => rw [hset] at h; exact absurd h (by simp)
  | some w =>
    rw [hset] at h
    simp only [Option.some_inj] at h
    subst h
    have hkeys : w.map Prod.fst = workflow.map Prod.fst :=
      keys_of_wfSetSlot _ _ _ _ _ hset
    constructor
    · exact wfLookup_wfPop_self w "131" (by rw [hkeys]; exact hnodup)
    · have h126 : (wfLookup workflow "126").isSome := by
        have hs := wfSetSlot_isSome workflow "126" "images" (.ref "26" 0)
        rw [hset] at hs
        simpa using hs.symm
      obtain ⟨m, hm⟩ := Option.isSome_iff_exists.mp h126
      refine ⟨m, hm, ?_⟩
      rw [wfLookup_wfPop_ne _ _ _ (by decide)]
      exact wfLookup_of_wfSetSlot_self _ _ _ _ _ _ hset hm

theorem apply_topology_upscale (workflow wf : Workflow) (tr : Int) (fsf : ℚ)
    (htr : ¬ |tr - 1024| < 1) (h131 : (wfLookup workflow "131").isSome)
    (h : apply_topology workflow tr fsf = some wf) :
    (∃ n, wfLookup workflow "131" = some n ∧
       wfLookup wf "131" =
         some { n with inputs := dictSet n.inputs "factor" (.num fsf) }) ∧
    (∃ m, wfLookup workflow "126" = some m ∧
       wfLookup wf "126" =
         some { m with inputs := dictSet m.inputs "images" (.ref "131" 0) }) := by
  unfold apply_topology at h
  rw [if_neg htr, if_pos h131] at h
  cases hset : wfSetSlot workflow "131" "factor" (.num fsf) with
  | none => rw [hset] at h; exact absurd h (by simp)
  | some w =>
    rw [hset] at h
    have h' : (match wfSetSlot w "126" "images" (.ref "131" 0) with
        | none => none
        | some wf2 => some wf2) = some wf := h
    cases hset2 : wfSetSlot w "126" "images" (.ref "131" 0) with
    | none => rw [hset2] at h'; exact absurd h' (by simp)
    | some w2 =>
      rw [hset2] at h'
      simp only [Option.some_inj] at h'
      subst h'
      constructor
      · obtain ⟨n, hn⟩ := Option.isSome_iff_exists.mp h131
        refine ⟨n, hn, ?_⟩
        rw [wfLookup_of_wfSetSlot_ne _ _ _ _ _ hset2 _ (by decide)]
        exact wfLookup_of_wfSetSlot_self _ _ _ _ _ _ hset hn
      · have h126w : (wfLookup w "126").isSome := by
          have hs := wfSetSlot_isSome w "126" "images" (.ref "131" 0)
          rw [hset2] at hs
          simpa using hs.symm
        obtain ⟨m, hm⟩ := Option.isSome_iff_exists.mp h126w
        have hm0 : wfLookup workflow "126" = some m := by
          rw [← wfLookup_of_wfSetSlot_ne _ _ _ _ _ hset _ (by decide)]
          exact hm
        refine ⟨m, hm0, ?_⟩
        exact wfLookup_of_wfSetSlot_self _ _ _ _ _ _ hset2 hm

/-- C1 (amended): with the code's strict check `|targetResolution - 1024| < 1`
(for integer resolutions, exactly 1024) the upscale node 131 is removed and the
save node's image source is the decode node 26; otherwise, provided the
template carries the upscale node, node 131 is present with its factor slot
equal to targetResolution/1024 and the save node's image source is node 131. -/
theorem topology_rewrite (base : Workflow) (prompt img outPfx : String)
    (tr : Int) (tt : String) (dims : Option (Int × Int)) (seed : Int) (ckpt : String)
    (wf : Workflow)
    (hnodup : (base.map Prod.fst).Nodup)
    (hwf : create_custom_workflow base prompt img outPfx tr tt dims seed ckpt = some wf) :
    (|tr - 1024| < 1 →
       wfLookup wf "131" = none ∧
       ∃ m, wfLookup wf "126" = some m ∧
         dictGet m.inputs "images" = some (.ref "26" 0)) ∧
    (¬ |tr - 1024| < 1 → (wfLookup base "131").isSome →
       (∃ n, wfLookup wf "131" = some n ∧
          dictGet n.inputs "factor" = some (.num ((tr : ℚ) / 1024))) ∧
       (∃ m, wfLookup wf "126" = some m ∧
          dictGet m.inputs "images" = some (.ref "131" 0))) := by
  have hwf' : apply_topology
      (applyNodeUpdates base (vs_node_updates prompt img outPfx seed ckpt
        (taskTuning tt).1 (taskTuning tt).2 (input_scale_of dims)))
      tr ((tr : ℚ) / 1024) = some wf := hwf
  constructor
  · intro htr
    have hnodupW : ((applyNodeUpdates base (vs_node_updates prompt img outPfx seed ckpt
        (taskTuning tt).1 (taskTuning tt).2 (input_scale_of dims))).map Prod.fst).Nodup := by
      rw [keys_applyNodeUpdates]; exact hnodup
    obtain ⟨h131none, m, _hm, hm'⟩ :=
      apply_topology_base_res _ wf tr _ htr hnodupW hwf'
    exact ⟨h131none, ⟨_, hm', dictGet_dictSet_self _ _ _⟩⟩
  · intro htr h131
    have h131W : (wfLookup (applyNodeUpdates base (vs_node_updates prompt img outPfx seed ckpt
        (taskTuning tt).1 (taskTuning tt).2 (input_scale_of dims))) "131").isSome := by
      rw [isSome_wfLookup_applyNodeUpdates]; exact h131
    obtain ⟨⟨n, _hn, hn'⟩, ⟨m, _hm, hm'⟩⟩ :=
      apply_topology_upscale _ wf tr _ htr h131W hwf'
    exact ⟨⟨_, hn', dictGet_dictSet_self _ _ _⟩, ⟨_, hm', dictGet_dictSet_self _ _ _⟩⟩

/-- Witness for `topology_rewrite`: at target resolution 1024 on the demo
template the instantiated graph carries no upscale node. -/
theorem topology_rewrite_witness :
    wfLookup ((create_custom_workflow demoTemplate "cozy room" "room_1.png"
      "vs_temp_1_0_" 1024 "style" (some (2048, 1536)) 5
      "model.safetensors").getD []) "131" = none :=
  ((topology_rewrite demoTemplate "cozy room" "room_1.png" "vs_temp_1_0_" 1024
    "style" (some (2048, 1536)) 5 "model.safetensors" _ (by decide)
    (opt_eq_some_getD _ [] (by decide))).1 (by decide)).1

/-- Counterexample to C1 as stated: targetResolution 1023 is within the
claimed rounding tolerance of plus or minus 1 of the native resolution 1024,
yet the instantiated graph still contains the upscale node 131 and the save
node's image source is node 131, not the decode node 26. -/
theorem topology_tolerance_cx :
    ((create_custom_workflow demoTemplate "cozy room" "room_1.png" "vs_temp_1_0_"
        1023 "style" (some (2048, 1536)) 5 "model.safetensors").map
      (fun wf => (wfLookup wf "131").isSome)) = some true ∧
    ((create_custom_workflow demoTemplate "cozy room" "room_1.png" "vs_temp_1_0_"
        1023 "style" (some (2048, 1536)) 5 "model.safetensors").bind
      (fun wf => wfLookup wf "126")).map
        (fun m => dictGet m.inputs "images") = some (some (.ref "131" 0)) := by
  constructor <;> decide

theorem wfSetSlot_none_iff (wf : Workflow) (k s : String) (v : JValue) :
    wfSetSlot wf k s v = none ↔ wfLookup wf k = none := by
  unfold wfSetSlot
  cases wfLookup wf k <;> simp

theorem apply_topology_eq_none_iff (workflow : Workflow) (tr : Int) (fsf : ℚ) :
    apply_topology workflow tr fsf = none ↔
      (wfLookup workflow "126" = none ∧
        (|tr - 1024| < 1 ∨ (wfLookup workflow "131").isSome)) := by
  unfold apply_topology
  by_cases htr : |tr - 1024| < 1
  · rw [if_pos htr]
    cases hset : wfSetSlot workflow "126" "images" (.ref "26" 0) with
    | none =>
      have h126 : wfLookup workflow "126" = none := (wfSetSlot_none_iff _ _ _ _).mp hset
      simp [h126, htr]
    | some w =>
      have h126 : ¬ wfLookup workflow "126" = none := by
        rw [← wfSetSlot_none_iff workflow "126" "images" (.ref "26" 0), hset]
        simp
      simp [h126]
  · rw [if_neg htr]
    by_cases hg : (wfLookup workflow "131").isSome
    · rw [if_pos hg]
      cases hset : wfSetSlot workflow "131" "factor" (.num fsf) with
      | none =>
        have : wfLookup workflow "131" = none := (wfSetSlot_none_iff _ _ _ _).mp hset
        rw [this] at hg
        exact absurd hg (by simp)
      | some w =>
        have e126 : wfLookup w "126" = wfLookup workflow "126" :=
          wfLookup_of_wfSetSlot_ne _ _ _ _ _ hset _ (by decide)
        cases hset2 : wfSetSlot w "126" "images" (.ref "131" 0) with
        | none =>
          have h126 : wfLookup workflow "126" = none := by
            rw [← e126]
            exact (wfSetSlot_none_iff _ _ _ _).mp hset2
          simp [h126, hg, hset2]
        | some w2 =>
          have h126 : ¬ wfLookup workflow "126" = none := by
            rw [← e126, ← wfSetSlot_none_iff w "126" "images" (.ref "131" 0), hset2]
            simp
          simp [h126, hset2]
    · rw [if_neg hg]
      simp [htr, hg]

/-- C2 (amended): the bind-time loop silently skips absent node keys and never
raises; instantiation fails (with a `KeyError` from the save-node rewiring, not
a `MissingTemplateNode` error) exactly when the save node 126 is absent and the
rewiring runs, i.e. when the target is base resolution or the upscale node 131
is present. -/
theorem missing_node_behavior (base : Workflow) (prompt img outPfx : String)
    (tr : Int) (tt : String) (dims : Option (Int × Int)) (seed : Int) (ckpt : String) :
    create_custom_workflow base prompt img outPfx tr tt dims seed ckpt = none ↔
      (wfLookup base "126" = none ∧
        (|tr - 1024| < 1 ∨ (wfLookup base "131").isSome)) := by
  have hcreate : create_custom_workflow base prompt img outPfx tr tt dims seed ckpt =
      apply_topology (applyNodeUpdates base (vs_node_updates prompt img outPfx seed ckpt
        (taskTuning tt).1 (taskTuning tt).2 (input_scale_of dims)))
      tr ((tr : ℚ) / 1024) := rfl
  rw [hcreate, apply_topology_eq_none_iff]
  have e126 : (wfLookup (applyNodeUpdates base (vs_node_updates prompt img outPfx seed ckpt
      (taskTuning tt).1 (taskTuning tt).2 (input_scale_of dims))) "126").isSome =
      (wfLookup base "126").isSome := isSome_wfLookup_applyNodeUpdates _ _ _
  have e131 : (wfLookup (applyNodeUpdates base (vs_node_updates prompt img outPfx seed ckpt
      (taskTuning tt).1 (taskTuning tt).2 (input_scale_of dims))) "131").isSome =
      (wfLookup base "131").isSome := isSome_wfLookup_applyNodeUpdates _ _ _
  simp only [← Option.not_isSome_iff_eq_none, e126, e131]

/-- Counterexample to C2 as stated: on an empty template every expected node
key is absent, yet instantiation at target resolution 2048 returns a graph
(the empty one) instead of failing with any error. -/
theorem missing_node_cx :
    create_custom_workflow [] "cozy room" "room_1.png" "vs_temp_1_0_" 2048 "style"
      (some (2048, 1536)) 5 "model.safetensors" = some [] := by
  decide

/-- Overwriting the sampler node's seed slot with a fixed value: two
instantiated graphs are "identical in every field except the seed slot"
exactly when their `scrubSeed` images are equal. -/
def scrubSeed (wf : Workflow) : Workflow :=
  wfModify wf "25" (fun n => { n with inputs := dictSet n.inputs "seed" (.int 0) })

theorem wfPop_wfModify_comm (wf : Workflow) (k k' : String) (f : NodeSpec → NodeSpec)
    (h : k ≠ k') : wfPop (wfModify wf k f) k' = wfModify (wfPop wf k') k f := by
  induction wf with
  | nil => simp [wfPop, wfModify]
  | cons p rest ih =>
    obtain ⟨k0, n⟩ := p
    by_cases h0 : k0 = k
    · subst h0
      simp [wfModify, wfPop, h]
    · by_cases h1 : k0 = k'
      · subst h1
        simp [wfModify, wfPop, h0, Ne.symm h0]
      · simp [wfModify, wfPop, h0, h1, ih]

theorem scrub_stepNodeUpdate (wf : Workflow) (u : String × List (String × JValue))
    (h : u.1 ≠ "25") :
    scrubSeed (stepNodeUpdate wf u) = stepNodeUpdate (scrubSeed wf) u := by
  by_cases hg : (wfLookup wf u.1).isSome
  · have hg' : (wfLookup (scrubSeed wf) u.1).isSome = true := by
      unfold scrubSeed
      rw [wfLookup_wfModify_ne _ _ _ _ h]
      exact hg
    unfold stepNodeUpdate
    rw [if_pos hg, if_pos hg']
    unfold scrubSeed
    exact wfModify_comm _ _ _ _ _ h
  · have hg' : ¬ (wfLookup (scrubSeed wf) u.1).isSome = true := by
      unfold scrubSeed
      rw [wfLookup_wfModify_ne _ _ _ _ h]
      exact hg
    unfold stepNodeUpdate
    rw [if_neg hg, if_neg hg']

theorem scrub_applyNodeUpdates (wf : Workflow)
    (updates : List (String × List (String × JValue)))
    (h : "25" ∉ updates.map Prod.fst) :
    scrubSeed (applyNodeUpdates wf updates) = applyNodeUpdates (scrubSeed wf) updates := by
  induction updates generalizing wf with
  | nil => rfl
  | cons u rest ih =>
    simp only [List.map_cons, List.mem_cons, not_or] at h
    show scrubSeed (applyNodeUpdates (stepNodeUpdate wf u) rest) =
      applyNodeUpdates (stepNodeUpdate (scrubSeed wf) u) rest
    rw [ih _ h.2, scrub_stepNodeUpdate _ _ (Ne.symm h.1)]

theorem scrub_seedStep (wf : Workflow) (s s' : Int) (dn : ℚ) :
    scrubSeed (stepNodeUpdate wf ("25", [("seed", .int s), ("denoise", .num dn)])) =
    scrubSeed (stepNodeUpdate wf ("25", [("seed", .int s'), ("denoise", .num dn)])) := by
  by_cases hg : (wfLookup wf "25").isSome
  · show scrubSeed (if (wfLookup wf "25").isSome then _ else wf) =
      scrubSeed (if (wfLookup wf "25").isSome then _ else wf)
    rw [if_pos hg, if_pos hg]
    unfold scrubSeed
    rw [wfModify_wfModify_same, wfModify_wfModify_same]
    congr 1
    funext n
    show NodeSpec.mk n.class_type
        (dictSet (dictSet (dictSet n.inputs "seed" (.int s)) "denoise" (.num dn))
          "seed" (.int 0)) =
      NodeSpec.mk n.class_type
        (dictSet (dictSet (dictSet n.inputs "seed" (.int s')) "denoise" (.num dn))
          "seed" (.int 0))
    rw [dictSet_set_set_cancel _ _ _ _ _ _ (by decide),
      dictSet_set_set_cancel _ _ _ _ _ _ (by decide)]
  · show scrubSeed (if (wfLookup wf "25").isSome then _ else wf) =
      scrubSeed (if (wfLookup wf "25").isSome then _ else wf)
    rw [if_neg hg, if_neg hg]

theorem scrub_wfSetSlot (wf : Workflow) (k s : String) (v : JValue) (h : k ≠ "25") :
    (wfSetSlot wf k s v).map scrubSeed = wfSetSlot (scrubSeed wf) k s v := by
  unfold wfSetSlot
  have e : wfLookup (scrubSeed wf) k = wfLookup wf k := by
    unfold scrubSeed
    exact wfLookup_wfModify_ne _ _ _ _ h
  rw [e]
  cases wfLookup wf k with
  | none => rfl
  | some n =>
    exact congrArg some (wfModify_comm _ _ _ _ _ h)

theorem scrub_apply_topology (workflow : Workflow) (tr : Int) (fsf : ℚ) :
    (apply_topology workflow tr fsf).map scrubSeed =
    apply_topology (scrubSeed workflow) tr fsf := by
  unfold apply_topology
  by_cases htr : |tr - 1024| < 1
  · rw [if_pos htr, if_pos htr]
    have e := scrub_wfSetSlot workflow "126" "images" (.ref "26" 0) (by decide)
    cases hset : wfSetSlot workflow "126" "images" (.ref "26" 0) with
    | none =>
      have hset' : wfSetSlot (scrubSeed workflow) "126" "images" (.ref "26" 0) = none := by
        rw [← e, hset]; rfl
      rw [hset']
      rfl
    | some w =>
      have hset' : wfSetSlot (scrubSeed workflow) "126" "images" (.ref "26" 0) =
          some (scrubSeed w) := by
        rw [← e, hset]; rfl
      rw [hset']
      exact congrArg some ((wfPop_wfModify_comm w "25" "131" _ (by decide)).symm)
  · rw [if_neg htr, if_neg htr]
    have e131 : wfLookup (scrubSeed workflow) "131" = wfLookup workflow "131" := by
      unfold scrubSeed
      exact wfLookup_wfModify_ne _ _ _ _ (by decide)
    by_cases hg : (wfLookup workflow "131").isSome
    · rw [if_pos hg, if_pos (by rw [e131]; exact hg)]
      have e := scrub_wfSetSlot workflow "131" "factor" (.num fsf) (by decide)
      cases hset : wfSetSlot workflow "131" "factor" (.num fsf) with
      | none =>
        have hset' : wfSetSlot (scrubSeed workflow) "131" "factor" (.num fsf) = none := by
          rw [← e, hset]; rfl
        rw [hset']
        rfl
      | some w =>
        have hset' : wfSetSlot (scrubSeed workflow) "131" "factor" (.num fsf) =
            some (scrubSeed w) := by
          rw [← e, hset]; rfl
        rw [hset']
        have e2 := scrub_wfSetSlot w "126" "images" (.ref "131" 0) (by decide)
        show Option.map scrubSeed
            (match wfSetSlot w "126" "images" (JValue.ref "131" 0) with
              | none => none
              | some wf2 => some wf2) =
          (match wfSetSlot (scrubSeed w) "126" "images" (JValue.ref "131" 0) with
            | none => none
            | some wf2 => some wf2)
        cases hset2 : wfSetSlot w "126" "images" (.ref "131" 0) with
        | none =>
          have hset2' : wfSetSlot (scrubSeed w) "126" "images" (.ref "131" 0) = none := by
            rw [← e2, hset2]; rfl
          rw [hset2']
          rfl
        | some w2 =>
          have hset2' : wfSetSlot (scrubSeed w) "126" "images" (.ref "131" 0) =
              some (scrubSeed w2) := by
            rw [← e2, hset2]; rfl
          rw [hset2']
          rfl
    · rw [if_neg hg, if_neg (by rw [e131]; exact hg)]
      rfl

/-- C9: instantiation is pure and deterministic up to the random seed — two
calls with identical arguments and different seeds yield graphs identical in
every field except the sampler node's seed slot (equal after `scrubSeed`); the
embedding operates on the deep copy of the immutable base template, which both
calls receive unchanged. -/
theorem instantiate_pure_up_to_seed (base : Workflow) (prompt img outPfx : String)
    (tr : Int) (tt : String) (dims : Option (Int × Int)) (s1 s2 : Int) (ckpt : String) :
    (create_custom_workflow base prompt img outPfx tr tt dims s1 ckpt).map scrubSeed =
    (create_custom_workflow base prompt img outPfx tr tt dims s2 ckpt).map scrubSeed := by
  have h1 : create_custom_workflow base prompt img outPfx tr tt dims s1 ckpt =
      apply_topology (applyNodeUpdates base (vs_node_updates prompt img outPfx s1 ckpt
        (taskTuning tt).1 (taskTuning tt).2 (input_scale_of dims)))
      tr ((tr : ℚ) / 1024) := rfl
  have h2 : create_custom_workflow base prompt img outPfx tr tt dims s2 ckpt =
      apply_topology (applyNodeUpdates base (vs_node_updates prompt img outPfx s2 ckpt
        (taskTuning tt).1 (taskTuning tt).2 (input_scale_of dims)))
      tr ((tr : ℚ) / 1024) := rfl
  have hscrub : scrubSeed (applyNodeUpdates base (vs_node_updates prompt img outPfx s1 ckpt
        (taskTuning tt).1 (taskTuning tt).2 (input_scale_of dims))) =
      scrubSeed (applyNodeUpdates base (vs_node_updates prompt img outPfx s2 ckpt
        (taskTuning tt).1 (taskTuning tt).2 (input_scale_of dims))) := by
    rw [vs_split_25 prompt img outPfx s1 ckpt _ _ _,
      vs_split_25 prompt img outPfx s2 ckpt _ _ _,
      applyNodeUpdates_append, applyNodeUpdates_append,
      applyNodeUpdates_cons _ ("25", [("seed", JValue.int s1),
        ("denoise", JValue.num (taskTuning tt).2)]) _,
      applyNodeUpdates_cons _ ("25", [("seed", JValue.int s2),
        ("denoise", JValue.num (taskTuning tt).2)]) _,
      scrub_applyNodeUpdates _ _ (by simp), scrub_applyNodeUpdates _ _ (by simp),
      scrub_seedStep _ s1 s2 (taskTuning tt).2]
  rw [h1, h2, scrub_apply_topology, scrub_apply_topology, hscrub]

/-! Embedding of the Generation Orchestrator (`app/img2img.py`). -/

/-- Python `str.split(sep)` for a single-character separator, over the
character list of the string: splits on every occurrence, keeping empty
tokens, and yields `[[]]` on the empty string. -/
def pySplit (sep : Char) : List Char → List (List Char)
  | [] => [[]]
  | c :: rest =>
    match pySplit sep rest with
    | [] => [[c]]
    | t :: ts => if c = sep then [] :: t :: ts else (c :: t) :: ts

theorem pySplit_ne_nil (sep : Char) (s : List Char) : pySplit sep s ≠ [] := by
  cases s with
  | nil => simp [pySplit]
  | cons c rest =>
    unfold pySplit
    cases pySplit sep rest with
    | nil => simp
    | cons t ts => by_cases h : c = sep <;> simp [h]

/-- Lines 52-56 of `generate_image`: the file-sequence number is
`stem.split("_")[-1]`, with the `IndexError` handler's "00001" fallback
(the `none` branch) for an empty split result. -/
def derive_number (stem : String) : String :=
  match (pySplit '_' stem.toList).getLast? with
  | some tok => String.mk tok
  | none => "00001"

/-- Line 57 of `generate_image`: the final output name
`virtual_staging_{number}.png`. -/
def final_output_name (stem : String) : String :=
  "virtual_staging_" ++ derive_number stem ++ ".png"

/-- Line 58 of `generate_image`: the temporary output-filename prefix
`vs_temp_{number}_{timestamp}_`. -/
def tempPfxName (stem : String) (timestamp : Int) : String :=
  "vs_temp_" ++ derive_number stem ++ "_" ++ toString timestamp ++ "_"

/-- C10: splitting a stem on underscores always yields a non-empty token
list, so the IndexError handler and its "00001" fallback are unreachable: the
derived number is always the last underscore-separated token of the stem, and
it is propagated verbatim — numeric or not — into the final output name. -/
theorem suffix_fallback_unreachable (stem : String) :
    ∃ tok, (pySplit '_' stem.toList).getLast? = some tok ∧
      derive_number stem = String.mk tok ∧
      final_output_name stem = "virtual_staging_" ++ String.mk tok ++ ".png" := by
  obtain ⟨tok, htok⟩ := Option.isSome_iff_exists.mp
    (by rw [List.getLast?_isSome]; exact pySplit_ne_nil '_' stem.toList)
  refine ⟨tok, htok, ?_, ?_⟩
  · unfold derive_number
    rw [htok]
  · unfold final_output_name derive_number
    rw [htok]

/-- An entry of an `images` list in a history response: its `type` field and
its `filename` field. -/
structure ImageEntry where
  type : String
  filename : String
  deriving DecidableEq, Repr

/-- One tick of the polling loop of `_wait_for_generation`: either the GET or
the JSON parse raised (`exn`), or a response arrived with a status code and,
when the prompt id is a key of the history object, the outputs (the values of
the outputs mapping, each carrying its images list). -/
inductive PollTick where
  | exn : PollTick
  | resp : Nat → Option (List (List ImageEntry)) → PollTick

/-- Lines 118-122 of `_wait_for_generation`: scan the output entries and
return the filename of the first image whose type is "output". -/
def findOutputImage (outputs : List (List ImageEntry)) : Option String :=
  outputs.findSome? (fun images =>
    (images.find? (fun img => img.type == "output")).map (fun img => img.filename))

/-- One iteration of the polling loop (lines 112-124): exception ticks, non-200
statuses, responses without the prompt id, and histories without an
output-typed image all yield nothing and fall through to the next tick. -/
def pollOnce (tick : PollTick) : Option String :=
  match tick with
  | .exn => none
  | .resp status_code hist =>
    if status_code = 200 then
      match hist with
      | some outputs => findOutputImage outputs
      | none => none
    else none

inductive WaitResult where
  | timedOut : WaitResult
  | completed : String → WaitResult
  deriving DecidableEq, Repr

/-- The `while time.time() - start_time < timeout` loop of
`_wait_for_generation` with its fixed 1-second sleep: one poll per elapsed
second, `t` the elapsed seconds so far and `fuel` the remaining budget. -/
def waitLoop (trace : Nat → PollTick) : Nat → Nat → WaitResult
  | _, 0 => .timedOut
  | t, fuel + 1 =>
    match pollOnce (trace t) with
    | some f => .completed f
    | none => waitLoop trace (t + 1) fuel

/-- Code of `ComfyUI._wait_for_generation` over a trace assigning each
1-second tick its poll outcome; `timedOut` models the raised `TimeoutError`. -/
def wait_for_generation (trace : Nat → PollTick) (timeout : Nat) : WaitResult :=
  waitLoop trace 0 timeout

theorem waitLoop_timeout (trace : Nat → PollTick) (fuel t : Nat)
    (h : ∀ i, i < fuel → pollOnce (trace (t + i)) = none) :
    waitLoop trace t fuel = .timedOut := by
  induction fuel generalizing t with
  | zero => rfl
  | succ n ih =>
    have h0 : pollOnce (trace t) = none := by
      have ht := h 0 (Nat.succ_pos n)
      simpa using ht
    unfold waitLoop
    rw [h0]
    refine ih (t + 1) (fun i hi => ?_)
    have ht := h (i + 1) (Nat.succ_lt_succ hi)
    rw [show t + 1 + i = t + (i + 1) by omega]
    exact ht

/-- C6: if no tick within the 600-second budget yields the prompt id together
with an output-typed image — exception ticks (connection resets, malformed
responses), non-200 statuses, absent ids and output-less histories included —
every tick is swallowed and retried, and the loop ends in `timedOut` (the
raised `TimeoutError`): only the elapsed-time budget terminates it. -/
theorem polling_timeout_budget (trace : Nat → PollTick)
    (h : ∀ t, t < 600 → pollOnce (trace t) = none) :
    wait_for_generation trace 600 = .timedOut := by
  unfold wait_for_generation
  exact waitLoop_timeout trace 600 0 (fun i hi => by simpa using h i hi)

/-- Witness for `polling_timeout_budget`: a trace in which every single poll
raises is swallowed tick by tick and ends in timeout. -/
theorem polling_timeout_budget_witness :
    wait_for_generation (fun _ => PollTick.exn) 600 = WaitResult.timedOut :=
  polling_timeout_budget _ (fun _ _ => rfl)

/-- The three directories the Orchestrator touches: the engine's input and
output locations and the data output directory, each a list of filenames. -/
structure FS where
  inputDir : List String
  outputDir : List String
  dataOutput : List String
  deriving DecidableEq, Repr

/-- Writing a file into a directory (`shutil.copy2` target side): an existing
file of that name is overwritten in place, a new name is appended. -/
def addFile (l : List String) (x : String) : List String :=
  if x ∈ l then l else l ++ [x]

/-- Deleting a file from a directory (`Path.unlink`). -/
def removeFile (l : List String) (x : String) : List String :=
  l.filter (fun y => y != x)

/-- The errors `generate_image` can surface: `FileNotFoundError` from
validation, `KeyError` from workflow creation, `RuntimeError` from submission,
`TimeoutError` from polling, and the `RuntimeError` for a missing artifact. -/
inductive GenError where
  | inputNotFound : GenError
  | templateKeyError : GenError
  | submissionError : GenError
  | generationTimeout : GenError
  | artifactMissing : GenError
  deriving DecidableEq, Repr

/-- Outcome of `generate_image`: the returned destination path string, or the
raised error. -/
inductive GenResult where
  | ok : String → GenResult
  | error : GenError → GenResult
  deriving DecidableEq, Repr

/-- Code of `ComfyUI._retrieve_result` over the model filesystem: exact
filename match first, then the first `{tempPfx}*` glob candidate; in both
success cases the destination is written and the engine-side original is
best-effort deleted (`unlinkOk` is whether that unlink succeeds; its failure
is swallowed by the bare except). -/
def retrieve_result (unlinkOk : Bool) (fs : FS) (filename tempPfx destName : String) :
    GenResult × FS :=
  if filename ∈ fs.outputDir then
    let fs1 : FS := { fs with dataOutput := addFile fs.dataOutput destName }
    let fs2 : FS := if unlinkOk then
        { fs1 with outputDir := removeFile fs1.outputDir filename } else fs1
    (.ok destName, fs2)
  else
    match fs.outputDir.filter (fun f => tempPfx.toList.isPrefixOf f.toList) with
    | [] => (.error .artifactMissing, fs)
    | c :: _ =>
      let fs1 : FS := { fs with dataOutput := addFile fs.dataOutput destName }
      let fs2 : FS := if unlinkOk then
          { fs1 with outputDir := removeFile fs1.outputDir c } else fs1
      (.ok destName, fs2)

/-- The input artifact: its filename and its `Path.stem`. -/
structure InputPath where
  name : String
  stem : String
  deriving DecidableEq, Repr

/-- The oracle for one `generate_image` run: whether the input path exists,
the `time.time()` stamp, the image-dimension read outcome, the drawn seed, the
configured checkpoint, the submission outcome (`none` models the RuntimeError
raised by `_queue_prompt`), the polling trace, and whether the two best-effort
unlinks succeed at the OS level (`unlinkInputOk = false` models the swallowed
`OSError` of the finally block). -/
structure OrchestratorEnv where
  inputExists : Bool
  timestamp : Int
  dims : Option (Int × Int)
  seed : Int
  checkpoint : String
  queueResult : Option String
  pollTrace : Nat → PollTick
  unlinkOutputOk : Bool
  unlinkInputOk : Bool

/-- Code of `ComfyUI._copy_to_comfy_input`: stage the input under its original
name in the engine's input directory. -/
def copy_to_comfy_input (fs : FS) (name : String) : FS :=
  { fs with inputDir := addFile fs.inputDir name }

/-- The `finally` block of `generate_image` (lines 84-90): if the staged copy
exists, attempt to unlink it, swallowing an `OSError`. -/
def cleanup_staged (unlinkOk : Bool) (fs : FS) (name : String) : FS :=
  if name ∈ fs.inputDir ∧ unlinkOk then
    { fs with inputDir := removeFile fs.inputDir name }
  else fs

/-- The `try` body of `generate_image` (steps 2-4, lines 62-82): create the
workflow, queue it, wait, and retrieve. -/
def generate_body (template : Workflow) (prompt : String) (tr : Int) (tt : String)
    (env : OrchestratorEnv) (fs1 : FS) (input : InputPath) : GenResult × FS :=
  match create_custom_workflow template prompt input.name
      (tempPfxName input.stem env.timestamp) tr tt env.dims env.seed env.checkpoint with
  | none => (.error .templateKeyError, fs1)
  | some _ =>
    match env.queueResult with
    | none => (.error .submissionError, fs1)
    | some _ =>
      match wait_for_generation env.pollTrace 600 with
      | .timedOut => (.error .generationTimeout, fs1)
      | .completed filename =>
        retrieve_result env.unlinkOutputOk fs1 filename
          (tempPfxName input.stem env.timestamp) (final_output_name input.stem)

/-- Code of `ComfyUI.generate_image`: validate, stage the input copy, run the
body, and always run the cleanup of the staged copy on the way out. -/
def generate_image (template : Workflow) (prompt : String) (tr : Int) (tt : String)
    (env : OrchestratorEnv) (fs : FS) (input : InputPath) : GenResult × FS :=
  if ¬ env.inputExists then (.error .inputNotFound, fs)
  else
    let body := generate_body template prompt tr tt env
      (copy_to_comfy_input fs input.name) input
    (body.1, cleanup_staged env.unlinkInputOk body.2 input.name)

theorem not_mem_removeFile (l : List String) (x : String) : x ∉ removeFile l x := by
  unfold removeFile
  intro h
  rcases List.mem_filter.mp h with ⟨_, hbe⟩
  simp at hbe

theorem not_mem_cleanup_staged (fs : FS) (name : String) :
    name ∉ (cleanup_staged true fs name).inputDir := by
  unfold cleanup_staged
  by_cases h : name ∈ fs.inputDir
  · rw [if_pos ⟨h, rfl⟩]
    exact not_mem_removeFile _ _
  · rw [if_neg (fun hc => h hc.1)]
    exact h

/-- C4: whenever the input exists (so the copy is staged) and the cleanup
unlink is not itself defeated by an OS error, the staged input copy is absent
from the engine's input directory after `generate_image` returns — on every
exit path: success, workflow KeyError, submission error, timeout, or
artifact-missing. -/
theorem staged_input_cleanup (template : Workflow) (prompt : String) (tr : Int)
    (tt : String) (env : OrchestratorEnv) (fs : FS) (input : InputPath)
    (hexists : env.inputExists = true) (hunlink : env.unlinkInputOk = true) :
    input.name ∉ (generate_image template prompt tr tt env fs input).2.inputDir := by
  unfold generate_image
  rw [if_neg (by simp [hexists])]
  show input.name ∉ (cleanup_staged env.unlinkInputOk
    (generate_body template prompt tr tt env
      (copy_to_comfy_input fs input.name) input).2 input.name).inputDir
  rw [hunlink]
  exact not_mem_cleanup_staged _ _

/-- A concrete oracle for a fully successful run: submission accepted, first
poll reports an output image "generated.png", both unlinks succeed. -/
def demoEnvOk : OrchestratorEnv :=
  { inputExists := true
    timestamp := 1
    dims := some (2048, 1536)
    seed := 5
    checkpoint := "model.safetensors"
    queueResult := some "job-1"
    pollTrace := fun _ => .resp 200 (some [[⟨"output", "generated.png"⟩]])
    unlinkOutputOk := true
    unlinkInputOk := true }

/-- A concrete starting filesystem: the engine's output directory already
holds the file the completed poll reports. -/
def demoFSOk : FS :=
  { inputDir := [], outputDir := ["generated.png"], dataOutput := [] }

/-- The concrete input artifact `room_00042.png`. -/
def demoInput : InputPath := { name := "room_00042.png", stem := "room_00042" }

/-- Witness for `staged_input_cleanup` on a concrete successful run. -/
theorem staged_input_cleanup_witness :
    "room_00042.png" ∉ (generate_image demoTemplate "cozy room" 2048 "style"
      demoEnvOk demoFSOk demoInput).2.inputDir :=
  staged_input_cleanup demoTemplate "cozy room" 2048 "style" demoEnvOk demoFSOk
    demoInput rfl rfl

theorem mem_addFile_self (l : List String) (x : String) : x ∈ addFile l x := by
  unfold addFile
  by_cases h : x ∈ l
  · rw [if_pos h]; exact h
  · rw [if_neg h]; simp

/-- C7: retrieval is two-tier.  An exact filename match succeeds and writes
the destination; failing that, any file matching the temporary prefix makes
retrieval succeed with the first such match (which is the file then deleted);
with no match of either kind it fails with the artifact-missing error; and the
returned result never depends on whether the best-effort engine-side delete
succeeded. -/
theorem retrieval_two_tier (unlinkOk : Bool) (fs : FS) (filename tempPfx destName : String) :
    (filename ∈ fs.outputDir →
       (retrieve_result unlinkOk fs filename tempPfx destName).1 = .ok destName ∧
       destName ∈ (retrieve_result unlinkOk fs filename tempPfx destName).2.dataOutput) ∧
    (filename ∉ fs.outputDir →
       fs.outputDir.filter (fun f => tempPfx.toList.isPrefixOf f.toList) ≠ [] →
       (retrieve_result unlinkOk fs filename tempPfx destName).1 = .ok destName ∧
       destName ∈ (retrieve_result unlinkOk fs filename tempPfx destName).2.dataOutput) ∧
    (filename ∉ fs.outputDir →
       fs.outputDir.filter (fun f => tempPfx.toList.isPrefixOf f.toList) = [] →
       (retrieve_result unlinkOk fs filename tempPfx destName).1 = .error .artifactMissing) ∧
    (∀ c rest, filename ∉ fs.outputDir →
       fs.outputDir.filter (fun f => tempPfx.toList.isPrefixOf f.toList) = c :: rest →
       (retrieve_result true fs filename tempPfx destName).2.outputDir =
         removeFile fs.outputDir c) ∧
    ((retrieve_result false fs filename tempPfx destName).1 =
       (retrieve_result true fs filename tempPfx destName).1) := by
  refine ⟨fun hex => ?_, fun hex hcand => ?_, fun hex hcand => ?_,
    fun c rest hex hcand => ?_, ?_⟩
  · unfold retrieve_result
    rw [if_pos hex]
    cases unlinkOk <;> simp <;> exact mem_addFile_self _ _
  · unfold retrieve_result
    rw [if_neg hex]
    cases hflt : fs.outputDir.filter (fun f => tempPfx.toList.isPrefixOf f.toList) with
    | nil => exact absurd hflt hcand
    | cons c rest =>
      cases unlinkOk <;> simp <;> exact mem_addFile_self _ _
  · unfold retrieve_result
    rw [if_neg hex, hcand]
  · unfold retrieve_result
    rw [if_neg hex, hcand]
    simp
  · unfold retrieve_result
    by_cases hex : filename ∈ fs.outputDir
    · rw [if_pos hex, if_pos hex]
    · rw [if_neg hex, if_neg hex]
      cases hflt : fs.outputDir.filter (fun f => tempPfx.toList.isPrefixOf f.toList) <;> rfl

/-- Witness for `retrieval_two_tier`: the prefix-glob fallback succeeds when
the exact name is absent but a prefix match exists. -/
theorem retrieval_two_tier_witness :
    (retrieve_result true (FS.mk [] ["vs_temp_00042_1_a.png"] []) "missing.png"
      "vs_temp_00042_1_" "virtual_staging_00042.png").1 =
      .ok "virtual_staging_00042.png" ∧
    "virtual_staging_00042.png" ∈
      (retrieve_result true (FS.mk [] ["vs_temp_00042_1_a.png"] []) "missing.png"
        "vs_temp_00042_1_" "virtual_staging_00042.png").2.dataOutput :=
  (retrieval_two_tier true (FS.mk [] ["vs_temp_00042_1_a.png"] []) "missing.png"
    "vs_temp_00042_1_" "virtual_staging_00042.png").2.1 (by decide) (by decide)

theorem retrieve_result_ok (unlinkOk : Bool) (fs : FS)
    (filename tempPfx destName p : String) (fs2 : FS)
    (h : retrieve_result unlinkOk fs filename tempPfx destName = (.ok p, fs2)) :
    p = destName ∧ destName ∈ fs2.dataOutput := by
  unfold retrieve_result at h
  by_cases hex : filename ∈ fs.outputDir
  · rw [if_pos hex] at h
    simp only [Prod.mk.injEq, GenResult.ok.injEq] at h
    obtain ⟨hp, hfs⟩ := h
    subst hp
    refine ⟨rfl, ?_⟩
    cases unlinkOk <;> simp [← hfs] <;> exact mem_addFile_self _ _
  · rw [if_neg hex] at h
    cases hflt : fs.outputDir.filter (fun f => tempPfx.toList.isPrefixOf f.toList) with
    | nil =>
      rw [hflt] at h
      simp at h
    | cons c rest =>
      rw [hflt] at h
      simp only [Prod.mk.injEq, GenResult.ok.injEq] at h
      obtain ⟨hp, hfs⟩ := h
      subst hp
      refine ⟨rfl, ?_⟩
      cases unlinkOk <;> simp [← hfs] <;> exact mem_addFile_self _ _

theorem dataOutput_cleanup_staged (u : Bool) (fs : FS) (name : String) :
    (cleanup_staged u fs name).dataOutput = fs.dataOutput := by
  unfold cleanup_staged
  by_cases h : name ∈ fs.inputDir ∧ u = true
  · rw [if_pos h]
  · rw [if_neg h]

theorem generate_body_ok (template : Workflow) (prompt : String) (tr : Int)
    (tt : String) (env : OrchestratorEnv) (fs1 : FS) (input : InputPath)
    (p : String) (fs2 : FS)
    (h : generate_body template prompt tr tt env fs1 input = (.ok p, fs2)) :
    p = final_output_name input.stem ∧ p ∈ fs2.dataOutput := by
  unfold generate_body at h
  cases hc : create_custom_workflow template prompt input.name
      (tempPfxName input.stem env.timestamp) tr tt env.dims env.seed env.checkpoint with
  | none => rw [hc] at h; simp at h
  | some w =>
    rw [hc] at h
    have h1 : (match env.queueResult with
        | none => ((.error .submissionError : GenResult), fs1)
        | some _ =>
          match wait_for_generation env.pollTrace 600 with
          | .timedOut => (.error .generationTimeout, fs1)
          | .completed filename =>
            retrieve_result env.unlinkOutputOk fs1 filename
              (tempPfxName input.stem env.timestamp)
              (final_output_name input.stem)) = (.ok p, fs2) := h
    cases hq : env.queueResult with
    | none => rw [hq] at h1; simp at h1
    | some pid =>
      rw [hq] at h1
      have h2 : (match wait_for_generation env.pollTrace 600 with
          | .timedOut => ((.error .generationTimeout : GenResult), fs1)
          | .completed filename =>
            retrieve_result env.unlinkOutputOk fs1 filename
              (tempPfxName input.stem env.timestamp)
              (final_output_name input.stem)) = (.ok p, fs2) := h1
      cases hw : wait_for_generation env.pollTrace 600 with
      | timedOut => rw [hw] at h2; simp at h2
      | completed filename =>
        rw [hw] at h2
        have h3 : retrieve_result env.unlinkOutputOk fs1 filename
            (tempPfxName input.stem env.timestamp)
            (final_output_name input.stem) = (.ok p, fs2) := h2
        obtain ⟨hp, hmem⟩ := retrieve_result_ok _ _ _ _ _ _ _ h3
        exact ⟨hp, hp ▸ hmem⟩

/-- C5 (amended): every successful generate call returns the destination name
`virtual_staging_<suffix>.png` — not `staged_<suffix>.png` — where suffix is
the number derived from the input artifact's stem, and that name is present in
the data output directory afterwards. -/
theorem output_naming (template : Workflow) (prompt : String) (tr : Int) (tt : String)
    (env : OrchestratorEnv) (fs : FS) (input : InputPath) (p : String) (fs' : FS)
    (h : generate_image template prompt tr tt env fs input = (.ok p, fs')) :
    p = final_output_name input.stem ∧ p ∈ fs'.dataOutput := by
  unfold generate_image at h
  by_cases hex : env.inputExists = true
  · rw [if_neg (by simp [hex])] at h
    have h1 : ((generate_body template prompt tr tt env
        (copy_to_comfy_input fs input.name) input).1,
      cleanup_staged env.unlinkInputOk
        (generate_body template prompt tr tt env
          (copy_to_comfy_input fs input.name) input).2 input.name) = (.ok p, fs') := h
    rw [Prod.mk.injEq] at h1
    obtain ⟨hp, hfs⟩ := h1
    have hB : generate_body template prompt tr tt env
        (copy_to_comfy_input fs input.name) input =
        (.ok p, (generate_body template prompt tr tt env
          (copy_to_comfy_input fs input.name) input).2) := by
      rw [← hp]
    obtain ⟨hname, hmem⟩ := generate_body_ok template prompt tr tt env _ input p _ hB
    refine ⟨hname, ?_⟩
    rw [← hfs, dataOutput_cleanup_staged]
    exact hmem
  · rw [if_pos hex] at h
    simp at h

/-- Counterexample to C5 as stated: a successful generate run on input
`room_00042.png` (numeric suffix 00042) places and returns the name
`virtual_staging_00042.png`, not `staged_00042.png`. -/
theorem output_naming_cx :
    (generate_image demoTemplate "cozy room" 2048 "style" demoEnvOk demoFSOk
      demoInput).1 = GenResult.ok "virtual_staging_00042.png" ∧
    ("virtual_staging_00042.png" : String) ≠ "staged_00042.png" := by
  constructor
  · decide
  · decide

/-- Witness for `output_naming` on the concrete successful run. -/
theorem output_naming_witness :
    "virtual_staging_00042.png" = final_output_name "room_00042" ∧
    "virtual_staging_00042.png" ∈ (FS.mk [] [] ["virtual_staging_00042.png"]).dataOutput :=
  output_naming demoTemplate "cozy room" 2048 "style" demoEnvOk demoFSOk demoInput
    "virtual_staging_00042.png" (FS.mk [] [] ["virtual_staging_00042.png"]) (by decide)
